import Mathlib

/-
Verification of the netlist-assembly model of the `analog_sim` package
(`analog_sim/fixture/fixture.py` and `analog_sim/tools/xschem.py`).

The embedding models Python strings as Lean `String`s, Python dicts
(insertion-ordered since Python 3.7) as association lists with
insert-or-overwrite-in-place semantics, and Python exceptions as
`Except PyError`.  External I/O (environment variables, the filesystem,
the xschem subprocess) is passed in explicitly as lookup functions.
-/

namespace AnalogSim

/-- Python exception outcomes that the embedded code can raise:
`KeyError` from a dict or `os.environ` lookup, `AttributeError` from
accessing a missing attribute (or an attribute of `None`), and
`FileNotFoundError` from `open` on a missing path. -/
inductive PyError where
  | keyError (key : String)
  | attributeError (attr : String)
  | fileNotFound (path : String)
deriving DecidableEq

/-- A YAML document as loaded by `yaml.load`: only the shapes the code
under test touches (strings and string-keyed mappings). -/
inductive Yaml where
  | str (s : String)
  | map (entries : List (String × Yaml))

/-- A Python value passed as the `config` argument of `set_pvt` /
`set_include`; the code branches on `type(config) == str`. -/
inductive PyVal where
  | str (s : String)
  | int (i : Int)
  | pyNone
  | boolean (b : Bool)

/-- Python dict lookup `d[k]` on an insertion-ordered association list:
the first binding of the key, `none` when absent (a `KeyError` site). -/
def dictGet? {β : Type} : List (String × β) → String → Option β
  | [], _ => none
  | (k', v) :: rest, k => if k' = k then some v else dictGet? rest k

/-- Python dict assignment `d[k] = v`: overwrite in place when the key is
present (keeping its position, as Python dicts do), otherwise append the
new binding at the end (insertion order). -/
def dictSet {β : Type} : List (String × β) → String → β → List (String × β)
  | [], k, v => [(k, v)]
  | (k', v') :: rest, k, v =>
      if k' = k then (k, v) :: rest else (k', v') :: dictSet rest k v

/-- YAML subscript `doc[k]`; `none` models the lookup failing (`KeyError`
on a mapping; indexing a scalar also fails and is folded into `none`). -/
def Yaml.get? : Yaml → String → Option Yaml
  | Yaml.str _, _ => none
  | Yaml.map es, k => dictGet? es k

/-- Modelled from the spec: the `Component` classes live in
`analog_sim/fixture/component.py`, which is not part of the sources
here.  Per the spec a component carries a name (unique within its type
group), a type tag, and raw or generated netlist text; the DUT variant
is the one whose type tag is `"dut"`. -/
structure Component where
  type : String
  name : String
  netlist : String
deriving DecidableEq

/-- Modelled from the spec: `DUTComponent(name, netlist)` constructs the
device-under-test component variant, whose type group is `"dut"`. -/
def DUTComponent (name : String) (netlist : String) : Component :=
  { type := "dut", name := name, netlist := netlist }

/-- Modelled from the spec: a `PowerDomain` is a named supply grouping;
its voltage/topology parameters only matter to its renderer, which the
backend abstraction below supplies. -/
structure PowerDomain where
  name : String
deriving DecidableEq

/-- Modelled from the spec: `IncludeLibrary(include, corner)` pairs a
library include specification with the PVT corner it is rendered
against (`fixture.py` builds it from `global_settings['include']` and
`self.pvt['corner']['nominal']`). -/
structure IncludeLibrary where
  library : Yaml
  corner : Yaml

/-- Modelled from the spec: a `Simulation` is the single active analysis
directive; its parameters only matter to its renderer. -/
structure Simulation where
  tag : String
deriving DecidableEq

/-- Modelled from the spec: the simulator backend (`self.analog_sim_obj`)
is a strategy object chosen from the `SIMULATOR` environment variable at
construction.  The backend modules are outside the sources here; the
fixture only uses the run path pieces and the per-entity
`write_netlist(self.analog_sim_obj)` render methods, which we model as
the backend's rendering functions. -/
structure Backend where
  run_dir : String
  temp_netlist : String
  renderInclude : IncludeLibrary → String
  renderDomain : PowerDomain → String
  renderComponent : Component → String
  renderComponentInstance : Component → String
  renderSimulation : Simulation → String

/-- The `Fixture` state: ordered include list, insertion-ordered dicts of
power domains and of component groups (type -> name -> component), the
optional simulation directive, the `pvt` attribute (`none` models the
attribute not existing before `set_pvt` runs), and the backend. -/
structure Fixture where
  includes : List IncludeLibrary
  power_domains : List (String × PowerDomain)
  components : List (String × List (String × Component))
  options : List (String × Yaml)
  simulation : Option Simulation
  pvt : Option Yaml
  analog_sim_obj : Backend

/-- The fixture state as `Fixture.__init__` first builds it, before the
DUT component is generated and registered. -/
def initialFixture (backend : Backend) : Fixture :=
  { includes := [], power_domains := [], components := [], options := [],
    simulation := none, pvt := none, analog_sim_obj := backend }

/-- `Fixture.add_component`: create the type group if absent, then bind
`component.name` to the component inside that group (silent overwrite on
collision).  Mirrors

    if not component.type in self.components.keys():
        self.components[component.type] = \x7b\x7d
    self.components[component.type][component.name] = component
-/
def add_component (f : Fixture) (component : Component) : Fixture :=
  let comps := if (dictGet? f.components component.type).isSome then f.components
               else dictSet f.components component.type []
  let group := (dictGet? comps component.type).getD []
  { f with components := dictSet comps component.type (dictSet group component.name component) }

/-- `Fixture.add_power_domain`: insert/overwrite by the domain's name. -/
def add_power_domain (f : Fixture) (power_domain : PowerDomain) : Fixture :=
  { f with power_domains := dictSet f.power_domains power_domain.name power_domain }

/-- `Fixture.get_power_domain`: exact lookup, `KeyError` when absent. -/
def get_power_domain (f : Fixture) (name : String) : Except PyError PowerDomain :=
  match dictGet? f.power_domains name with
  | none => Except.error (PyError.keyError name)
  | some d => Except.ok d

/-- `Fixture.set_simulation`: replace any existing directive. -/
def set_simulation (f : Fixture) (simulation : Simulation) : Fixture :=
  { f with simulation := some simulation }

/-- One include entry of the includes loop:
`include.write_netlist(self.analog_sim_obj)` followed by `'\n'`. -/
def includeEntryText (f : Fixture) (i : IncludeLibrary) : String :=
  f.analog_sim_obj.renderInclude i ++ "\n"

/-- One power-domain entry of the supply-domain loop: the
`'* Supply domain: %s\n' % domain` comment, the domain's rendering, and
the trailing `'\n'`. -/
def domainEntryText (f : Fixture) (n : String) (d : PowerDomain) : String :=
  "* Supply domain: " ++ n ++ "\n" ++ f.analog_sim_obj.renderDomain d ++ "\n"

/-- One component entry of the components loop (which iterates over all
type groups, the `'dut'` group included): the `'* Component: %s\n'`
comment, the component's rendering, and the trailing `'\n'`. -/
def componentEntryText (f : Fixture) (n : String) (c : Component) : String :=
  "* Component: " ++ n ++ "\n" ++ f.analog_sim_obj.renderComponent c ++ "\n"

/-- One DUT entry of the DUT loop: the `'* DUT: %s\n'` comment, the
component's `write_netlist_instance` rendering, and the trailing `'\n'`. -/
def dutEntryText (f : Fixture) (n : String) (c : Component) : String :=
  "* DUT: " ++ n ++ "\n" ++ f.analog_sim_obj.renderComponentInstance c ++ "\n"

/-- The simulation directive's rendering followed by the trailing `'\n'`. -/
def simulationEntryText (f : Fixture) (sim : Simulation) : String :=
  f.analog_sim_obj.renderSimulation sim ++ "\n"

/-- The bodies emitted by the includes loop, in registration order. -/
def includePieces (f : Fixture) : List String :=
  f.includes.map (includeEntryText f)

/-- The bodies emitted by the supply-domain loop, in dict order. -/
def domainPieces (f : Fixture) : List String :=
  f.power_domains.map (fun p => domainEntryText f p.fst p.snd)

/-- The bodies emitted by the two nested component loops: outer over type
groups in dict order, inner over names in dict order. -/
def componentPieces (f : Fixture) : List String :=
  (f.components.map (fun g => g.snd.map (fun p => componentEntryText f p.fst p.snd))).flatten

/-- The bodies emitted by the DUT loop over the `'dut'` group. -/
def dutPieces (f : Fixture) (duts : List (String × Component)) : List String :=
  duts.map (fun p => dutEntryText f p.fst p.snd)

/-- Section body built by the includes loop. -/
def includes_section (f : Fixture) : String := String.join (includePieces f)

/-- Section body built by the supply-domains loop. -/
def domains_section (f : Fixture) : String := String.join (domainPieces f)

/-- Section body built by the components loops. -/
def components_section (f : Fixture) : String := String.join (componentPieces f)

/-- Section body built by the DUT loop. -/
def duts_section (f : Fixture) (duts : List (String × Component)) : String :=
  String.join (dutPieces f duts)

/-- `Fixture.write_netlist`.  The first component of the result is the
list of lines printed to stdout, the second the outcome: `Except.ok`
carries the netlist text that is then written to
`analog_sim_obj.run_dir ++ "/" ++ analog_sim_obj.temp_netlist`, while
`Except.error` models the exception propagating before any file is
written.  `self.components['dut']` raises `KeyError` when the `'dut'`
group is missing (before the warning print is reached); when
`self.simulation` is `None` the code prints the warning and then
evaluates `self.simulation.write_netlist(...)`, which raises
`AttributeError` on `None`. -/
def write_netlist (f : Fixture) : List String × Except PyError String :=
  let netlist := "* auto-generated netlist from analog_sim environment\n\n"
  let netlist := netlist ++ "*** Library includes\n\n" ++ includes_section f
  let netlist := netlist ++ "*** Supply domains\n\n" ++ domains_section f
  let netlist := netlist ++ "Vgnd0 gnd 0 0\n"
  let netlist := netlist ++ "\n*** Components\n\n" ++ components_section f
  let netlist := netlist ++ "\n*** DUTs\n\n"
  match dictGet? f.components "dut" with
  | none => ([], Except.error (PyError.keyError "dut"))
  | some duts =>
    let netlist := netlist ++ duts_section f duts
    match f.simulation with
    | none =>
        (["WARNING! There is no simulation command set!"],
         Except.error (PyError.attributeError "write_netlist"))
    | some sim =>
        ([], Except.ok (netlist ++ "* Simulation command\n" ++ simulationEntryText f sim))

/-- The text written by a successful `write_netlist` run (the empty
string is returned in the exception cases, where nothing is written). -/
def netlist_text (f : Fixture) : String :=
  match (write_netlist f).snd with
  | Except.ok s => s
  | Except.error _ => ""

/-- Character class of the environment-token regex `[A-Z_]`. -/
def isEnvChar (c : Char) : Bool :=
  (decide ('A' ≤ c) && decide (c ≤ 'Z')) || decide (c = '_')

/-- Python `re.match(r'\$[A-Z_]+', config)`: a match anchored at the
start of the string, greedy over `[A-Z_]`.  `none` models `re.match`
returning `None`, after which `x.group(0)` raises `AttributeError`. -/
def matchEnvToken (s : String) : Option String :=
  match s.data with
  | [] => none
  | c :: rest =>
    if c = '$' then
      let t := rest.takeWhile isEnvChar
      if t.isEmpty then none else some (String.mk ('$' :: t))
    else none

/-- `x.group(0)[1:]`: the environment-variable name of a matched token,
i.e. the token without its leading `'$'`. -/
def tokenVarName (tok : String) : String := String.mk (tok.data.drop 1)

/-- Worker for `pyReplace`, with a step-count fuel of the subject's
length (each step consumes at least one character, so the fuel always
suffices). -/
def replaceAllAux (pat repl : List Char) : Nat → List Char → List Char
  | _, [] => []
  | 0, s => s
  | Nat.succ fuel, c :: cs =>
    if pat.isPrefixOf (c :: cs) then
      repl ++ replaceAllAux pat repl fuel (List.drop (pat.length - 1) cs)
    else c :: replaceAllAux pat repl fuel cs

/-- Python `s.replace(pat, repl)`: replace every non-overlapping
occurrence of `pat`, scanning left to right.  The code only ever calls
it with the nonempty matched token as the pattern. -/
def pyReplace (s pat repl : String) : String :=
  if pat.data.isEmpty then s
  else String.mk (replaceAllAux pat.data repl.data s.data.length s.data)

/-- External inputs of `set_pvt` / `set_include`: `os.environ` and the
filesystem-plus-`yaml.load` pipeline (a path maps to the parsed document;
`none` covers the file being absent). -/
structure IOEnv where
  vars : String → Option String
  files : String → Option Yaml

/-- `Fixture.set_pvt(config)`: a no-op returning `None` unless
`type(config) == str`; otherwise match the leading `$VAR` token
(`AttributeError` on `x.group` when there is no match), substitute the
environment variable (`KeyError` when undefined), open and load the file
(`FileNotFoundError` when absent), and store `global_settings['pvt']`
into `self.pvt` (`KeyError` when the key is missing).  The second
component of a successful result lists the files opened. -/
def set_pvt (env : IOEnv) (f : Fixture) (config : PyVal) :
    Except PyError (Fixture × List String) :=
  match config with
  | PyVal.str s =>
    match matchEnvToken s with
    | none => Except.error (PyError.attributeError "group")
    | some tok =>
      match env.vars (tokenVarName tok) with
      | none => Except.error (PyError.keyError (tokenVarName tok))
      | some v =>
        let path := pyReplace s tok v
        match env.files path with
        | none => Except.error (PyError.fileNotFound path)
        | some doc =>
          match doc.get? "pvt" with
          | none => Except.error (PyError.keyError "pvt")
          | some p => Except.ok ({ f with pvt := some p }, [path])
  | _ => Except.ok (f, [])

/-- `Fixture.set_include(config)`: same guard and path resolution as
`set_pvt`, then
`IncludeLibrary(global_settings['include'], self.pvt['corner']['nominal'])`
is appended to `self.includes`.  Python evaluates the constructor
arguments left to right: `global_settings['include']` first (`KeyError`
when missing), then `self.pvt` (`AttributeError` when `set_pvt` has not
run yet), then the `'corner'` / `'nominal'` lookups. -/
def set_include (env : IOEnv) (f : Fixture) (config : PyVal) :
    Except PyError (Fixture × List String) :=
  match config with
  | PyVal.str s =>
    match matchEnvToken s with
    | none => Except.error (PyError.attributeError "group")
    | some tok =>
      match env.vars (tokenVarName tok) with
      | none => Except.error (PyError.keyError (tokenVarName tok))
      | some v =>
        let path := pyReplace s tok v
        match env.files path with
        | none => Except.error (PyError.fileNotFound path)
        | some doc =>
          match doc.get? "include" with
          | none => Except.error (PyError.keyError "include")
          | some inc =>
            match f.pvt with
            | none => Except.error (PyError.attributeError "pvt")
            | some p =>
              match p.get? "corner" with
              | none => Except.error (PyError.keyError "corner")
              | some cor =>
                match cor.get? "nominal" with
                | none => Except.error (PyError.keyError "nominal")
                | some nom =>
                  Except.ok
                    ({ f with includes := f.includes ++ [⟨inc, nom⟩] }, [path])
  | _ => Except.ok (f, [])

/-- External inputs of the `xschem` wrapper: `os.environ`
(`PROJECT_ROOT`, `HOME`), the subprocess `call(command, cwd)` result (an
exit status), the filesystem read of the generated `.spice` file, and
`os.getcwd()`. -/
structure XschemEnv where
  vars : String → Option String
  call : List String → String → Int
  readFile : String → Option String
  cwd : String

/-- The argument vector `netlist_generation` builds for `xschem`:
`-n -q -x`, the optional `-o os.getcwd()/folder`, the fixed driver
script path (a two-line tcl script the function writes to
`/tmp/netlist.tcl` beforehand), the optional
`--tcl "set top_subckt 1"`, and the schematic path. -/
def xschemCommand (env : XschemEnv) (schematic : String) (folder : Option String)
    (topcell : Bool) : List String :=
  ["xschem", "-n", "-q", "-x"]
  ++ (match folder with
      | some fold => ["-o", env.cwd ++ "/" ++ fold]
      | none => [])
  ++ ["--script", "/tmp/netlist.tcl"]
  ++ (if topcell then ["--tcl", "set top_subckt 1"] else [])
  ++ [schematic]

/-- `netlist_generation(schematic, folder, topcell)`: build the command,
run it with `cwd=os.environ['PROJECT_ROOT']` (`KeyError` when that
variable is undefined), and return the subprocess exit status
unchecked. -/
def netlist_generation (env : XschemEnv) (schematic : String) (folder : Option String)
    (topcell : Bool) : Except PyError Int :=
  let command := xschemCommand env schematic folder topcell
  match env.vars "PROJECT_ROOT" with
  | none => Except.error (PyError.keyError "PROJECT_ROOT")
  | some root => Except.ok (env.call command root)

/-- `generate_cell(library, cell)`: netlist the schematic at
`library/cell/schematic/cell.sch` (top cell as a subcircuit), discard
the returned exit status, and read
`os.environ['HOME'] + '/.xschem/simulations/' + cell + '.spice'`. -/
def generate_cell (env : XschemEnv) (library cell : String) : Except PyError String :=
  match netlist_generation env (library ++ "/" ++ cell ++ "/schematic/" ++ cell ++ ".sch")
      none true with
  | Except.error e => Except.error e
  | Except.ok _status =>
    match env.vars "HOME" with
    | none => Except.error (PyError.keyError "HOME")
    | some home =>
      match env.readFile (home ++ "/.xschem/simulations/" ++ cell ++ ".spice") with
      | none =>
          Except.error
            (PyError.fileNotFound (home ++ "/.xschem/simulations/" ++ cell ++ ".spice"))
      | some text => Except.ok text

/-- The prefix of `s` before the first occurrence of the (nonempty)
separator, on character lists. -/
def splitFirst (sep : List Char) : List Char → List Char
  | [] => []
  | c :: cs => if sep.isPrefixOf (c :: cs) then [] else c :: splitFirst sep cs

/-- Python `s.split(sep)[0]` for a nonempty separator: the text before
the first occurrence of `sep`, or all of `s` when `sep` does not
occur. -/
def pySplitHead (s sep : String) : String := String.mk (splitFirst sep.data s.data)

/-- `Fixture.__init__(cell_name)`: generate the DUT netlist via
`xschem.generate_cell(library='stdcell', cell='dff_SEUT-B')` (both
arguments hard-coded), truncate it at the
`'** flattened .save nodes'` marker, and register
`DUTComponent(name=cell_name, netlist=...)` on a fresh fixture.  The
simulator backend, chosen from the `SIMULATOR` environment variable
among interface modules outside these sources, is modelled from the
spec as a strategy object fixed by the environment and passed in as
`backend`. -/
def fixtureInit (env : XschemEnv) (backend : Backend) (cell_name : String) :
    Except PyError Fixture :=
  match generate_cell env "stdcell" "dff_SEUT-B" with
  | Except.error e => Except.error e
  | Except.ok text =>
    let netlist := pySplitHead text "** flattened .save nodes"
    Except.ok (add_component (initialFixture backend) (DUTComponent cell_name netlist))

/-- The lines of a character string: split at `'\n'`, one final
unterminated segment kept, no empty segment after a trailing newline
(so `lines "a\nb" = ["a", "b"]` and `lines "ab\n" = ["ab"]`). -/
def lines : List Char → List (List Char)
  | [] => []
  | c :: cs =>
    if c = '\n' then [] :: lines cs
    else
      match lines cs with
      | [] => [[c]]
      | l :: ls => (c :: l) :: ls

/-- The section-marker lines of a `write_netlist` document, in the order
the code emits them: header comment, library includes, supply domains,
ground tie, components, DUT instances, simulation command. -/
def marker_lines : List (List Char) :=
  ["* auto-generated netlist from analog_sim environment".data,
   "*** Library includes".data,
   "*** Supply domains".data,
   "Vgnd0 gnd 0 0".data,
   "*** Components".data,
   "*** DUTs".data,
   "* Simulation command".data]

/-- The subsequence of a line list consisting of the section-marker
lines. -/
def markerFilter (ls : List (List Char)) : List (List Char) :=
  ls.filter (fun l => decide (l ∈ marker_lines))

/-- All loop-emitted entries of a `write_netlist` run whose `'dut'`
group is `duts` and whose simulation directive is `sim`: include
entries, supply-domain entries, component entries (every type group),
DUT-instance entries, and the rendered simulation directive. -/
def loopPieces (f : Fixture) (duts : List (String × Component)) (sim : Simulation) :
    List String :=
  includePieces f ++ domainPieces f ++ componentPieces f ++ dutPieces f duts
    ++ [simulationEntryText f sim]

/-- The line-level decomposition of a successful `write_netlist`
document: the fixed header/marker/blank lines interleaved, in emission
order, with the lines of each loop entry (includes in registration
order, then domains, components, DUT instances, and the simulation
rendering). -/
def netlistLinesDecomp (f : Fixture) (duts : List (String × Component))
    (sim : Simulation) : List (List Char) :=
  ["* auto-generated netlist from analog_sim environment".data, ([] : List Char),
   "*** Library includes".data, []]
  ++ ((includePieces f).map (fun p => lines p.data)).flatten
  ++ ["*** Supply domains".data, []]
  ++ ((domainPieces f).map (fun p => lines p.data)).flatten
  ++ ["Vgnd0 gnd 0 0".data, [], "*** Components".data, []]
  ++ ((componentPieces f).map (fun p => lines p.data)).flatten
  ++ [[], "*** DUTs".data, []]
  ++ ((dutPieces f duts).map (fun p => lines p.data)).flatten
  ++ ["* Simulation command".data]
  ++ lines (simulationEntryText f sim).data

/-- The component group registered under a type tag (empty when the
type group does not exist). -/
def groupOf (f : Fixture) (t : String) : List (String × Component) :=
  (dictGet? f.components t).getD []

/-- The number of components registered under a type tag. -/
def groupSize (f : Fixture) (t : String) : Nat := (groupOf f t).length

/-- Fixture equality up to the DUT registration name: both fixtures hold
exactly one DUT component carrying the same netlist text, registered
under `c1` and `c2` respectively, and agree on every other field. -/
def sameDutNetlist (c1 c2 : String) (f1 f2 : Fixture) : Prop :=
  ∃ nl, f1.components = [("dut", [(c1, DUTComponent c1 nl)])] ∧
        f2.components = [("dut", [(c2, DUTComponent c2 nl)])] ∧
        f1.includes = f2.includes ∧ f1.power_domains = f2.power_domains ∧
        f1.simulation = f2.simulation ∧ f1.pvt = f2.pvt

/-- A concrete simulator backend used for evaluating the model on
closed inputs. -/
def testBackend : Backend :=
  { run_dir := "_rundir",
    temp_netlist := "netlist.spice",
    renderInclude := fun _ => ".lib mylib tt",
    renderDomain := fun d => "V" ++ d.name ++ " " ++ d.name ++ " 0 1.8",
    renderComponent := fun c =>
      if c.type = "dut" then ".subckt " ++ c.name ++ "\n.ends" else c.name ++ " a b 1k",
    renderComponentInstance := fun c => "Xdut0 d q " ++ c.name,
    renderSimulation := fun s => "." ++ s.tag ++ " 1n 1u" }

/-- A freshly constructed fixture over the concrete backend. -/
def emptyFixture : Fixture := initialFixture testBackend

/-- A concrete transient-analysis directive. -/
def simTran : Simulation := { tag := "tran" }

/-- A fixture holding one registered DUT and no simulation directive. -/
def cf1 : Fixture := add_component emptyFixture (DUTComponent "top" "X1 d q dff\n")

/-- A fixture holding one registered DUT (and no other component) plus a
simulation directive. -/
def cf2 : Fixture := set_simulation cf1 simTran

/-- A fully populated fixture: one include, one power domain, one
resistor component, one DUT, one simulation directive. -/
def cf3 : Fixture :=
  set_simulation
    (add_component
      (add_component
        (add_power_domain
          { emptyFixture with includes := [⟨Yaml.str "mylib", Yaml.str "tt"⟩] }
          { name := "vdd" })
        { type := "resistor", name := "R1", netlist := "" })
      (DUTComponent "top" "X1 d q dff\n"))
    simTran

/-- The `'dut'` group of `cf3`. -/
def cf3Duts : List (String × Component) := [("top", DUTComponent "top" "X1 d q dff\n")]

/-- A concrete configuration document with `include` and
`pvt.corner.nominal` entries. -/
def pvtDoc : Yaml :=
  Yaml.map [("include", Yaml.str "models.spice"),
            ("pvt", Yaml.map [("corner", Yaml.map [("nominal", Yaml.str "tt")])])]

/-- A concrete environment for the setters: `PDK_ROOT` is defined and
the resolved configuration path holds `pvtDoc`. -/
def cIOEnv : IOEnv :=
  { vars := fun k => if k = "PDK_ROOT" then some "/pdk" else none,
    files := fun p => if p = "/pdk/cfg.yaml" then some pvtDoc else none }

/-- Two concrete resistor components sharing type and name. -/
def cRes1 : Component := { type := "resistor", name := "R1", netlist := "a" }

/-- Second resistor with the same type and name as `cRes1`. -/
def cRes2 : Component := { type := "resistor", name := "R1", netlist := "b" }

/-- A concrete xschem environment whose subprocess reports exit status
0 and whose filesystem holds a generated netlist for `dff_SEUT-B`. -/
def xenvA : XschemEnv :=
  { vars := fun k =>
      if k = "PROJECT_ROOT" then some "/proj"
      else if k = "HOME" then some "/home/user" else none,
    call := fun _ _ => 0,
    readFile := fun p =>
      if p = "/home/user/.xschem/simulations/dff_SEUT-B.spice" then
        some "X1 a b inv\n** flattened .save nodes\nsave all"
      else none,
    cwd := "/proj" }

/-- The same environment as `xenvA` except that the subprocess reports
exit status 1. -/
def xenvB : XschemEnv := { xenvA with call := fun _ _ => 1 }

/-- The marker-truncated netlist text `fixtureInit` stores under either
environment. -/
def dutNetlistText : String := "X1 a b inv\n"

/-- The fixture `fixtureInit` produces for cell name `"alpha"`. -/
def c10FixA : Fixture := add_component emptyFixture (DUTComponent "alpha" dutNetlistText)

/-- The fixture `fixtureInit` produces for cell name `"beta"`. -/
def c10FixB : Fixture := add_component emptyFixture (DUTComponent "beta" dutNetlistText)

theorem dictGet?_dictSet_self {β : Type} (d : List (String × β)) (k : String) (v : β) :
    dictGet? (dictSet d k v) k = some v := by
  induction d with
  | nil => simp [dictSet, dictGet?]
  | cons p rest ih =>
    obtain ⟨k', v'⟩ := p
    by_cases h : k' = k
    · simp [dictSet, dictGet?, h]
    · simp [dictSet, dictGet?, h, ih]

theorem length_dictSet_of_isSome {β : Type} (d : List (String × β)) (k : String) (v : β)
    (h : (dictGet? d k).isSome) : (dictSet d k v).length = d.length := by
  induction d with
  | nil => simp [dictGet?] at h
  | cons p rest ih =>
    obtain ⟨k', v'⟩ := p
    by_cases hk : k' = k
    · simp [dictSet, hk]
    · rw [dictGet?, if_neg hk] at h
      simp [dictSet, hk, ih h]

theorem add_component_groupOf (f : Fixture) (c : Component) :
    dictGet? (add_component f c).components c.type
      = some (dictSet (groupOf f c.type) c.name c) := by
  unfold add_component groupOf
  by_cases h : (dictGet? f.components c.type).isSome
  · simp only [if_pos h, dictGet?_dictSet_self]
  · simp only [if_neg h, dictGet?_dictSet_self]
    rw [Option.not_isSome_iff_eq_none.mp h]
    simp

/-- Claim C1 (code bug): on a fixture with a registered DUT but no
simulation directive set, `write_netlist` prints the warning and then
raises `AttributeError` (the code evaluates
`self.simulation.write_netlist(...)` with `self.simulation == None`
right after printing the warning), so no netlist is written — contrary
to the documented soft-degradation behaviour. -/
theorem write_netlist_unset_simulation_raises :
    write_netlist cf1 =
      (["WARNING! There is no simulation command set!"],
       Except.error (PyError.attributeError "write_netlist")) := rfl

/-- Claim C4: when the component registry has no `'dut'` type group,
`write_netlist` raises `KeyError 'dut'` (and returns before the file
write, so nothing is written and nothing is printed). -/
theorem write_netlist_missing_dut_raises (f : Fixture)
    (h : dictGet? f.components "dut" = none) :
    write_netlist f = ([], Except.error (PyError.keyError "dut")) := by
  simp [write_netlist, h]

theorem write_netlist_missing_dut_raises_witness :
    dictGet? emptyFixture.components "dut" = none ∧
    write_netlist emptyFixture = ([], Except.error (PyError.keyError "dut")) :=
  ⟨rfl, write_netlist_missing_dut_raises emptyFixture rfl⟩

/-- Claim C6: registering two components with equal type and equal name
overwrites silently — `add_component` is total (no error), the second
call leaves the type group's size unchanged, and the stored entry is the
second argument. -/
theorem add_component_same_key_overwrites (f : Fixture) (c1 c2 : Component)
    (ht : c1.type = c2.type) (hn : c1.name = c2.name) :
    groupSize (add_component (add_component f c1) c2) c2.type
      = groupSize (add_component f c1) c1.type ∧
    dictGet? (groupOf (add_component (add_component f c1) c2) c2.type) c2.name
      = some c2 := by
  obtain ⟨t2, n2, nl2⟩ := c2
  simp only at ht hn
  subst ht; subst hn
  have h1 := add_component_groupOf f c1
  have h2 := add_component_groupOf (add_component f c1) ⟨c1.type, c1.name, nl2⟩
  have hg1 : groupOf (add_component f c1) c1.type
      = dictSet (groupOf f c1.type) c1.name c1 := by
    unfold groupOf; rw [h1]; rfl
  have hg2 : groupOf (add_component (add_component f c1) ⟨c1.type, c1.name, nl2⟩) c1.type
      = dictSet (groupOf (add_component f c1) c1.type) c1.name ⟨c1.type, c1.name, nl2⟩ := by
    unfold groupOf; rw [h2]; rfl
  constructor
  · unfold groupSize
    rw [hg2, hg1]
    exact length_dictSet_of_isSome _ _ _ (by rw [dictGet?_dictSet_self]; rfl)
  · rw [hg2, dictGet?_dictSet_self]

theorem add_component_same_key_overwrites_witness :
    cRes1.type = cRes2.type ∧ cRes1.name = cRes2.name ∧
    (groupSize (add_component (add_component emptyFixture cRes1) cRes2) cRes2.type
       = groupSize (add_component emptyFixture cRes1) cRes1.type ∧
     dictGet? (groupOf (add_component (add_component emptyFixture cRes1) cRes2) cRes2.type)
        cRes2.name = some cRes2) :=
  ⟨rfl, rfl, add_component_same_key_overwrites emptyFixture cRes1 cRes2 rfl rfl⟩

/-- Claim C7: with a valid string config (leading `$VAR` token, the
variable defined, the file present with an `include` entry and a
well-formed `pvt.corner.nominal` entry), `set_include` before any
`set_pvt` raises `AttributeError` on the missing `pvt` attribute, while
after a successful `set_pvt` the same call succeeds and appends exactly
one `IncludeLibrary` to the includes list. -/
theorem set_include_requires_prior_set_pvt (env : IOEnv) (f : Fixture)
    (s tok v : String) (doc inc p cor nom : Yaml)
    (hpvt : f.pvt = none)
    (htok : matchEnvToken s = some tok)
    (hvar : env.vars (tokenVarName tok) = some v)
    (hfile : env.files (pyReplace s tok v) = some doc)
    (hinc : doc.get? "include" = some inc)
    (hp : doc.get? "pvt" = some p)
    (hcor : p.get? "corner" = some cor)
    (hnom : cor.get? "nominal" = some nom) :
    set_include env f (PyVal.str s) = Except.error (PyError.attributeError "pvt") ∧
    set_pvt env f (PyVal.str s) = Except.ok ({ f with pvt := some p }, [pyReplace s tok v]) ∧
    set_include env { f with pvt := some p } (PyVal.str s)
      = Except.ok ({ f with pvt := some p, includes := f.includes ++ [⟨inc, nom⟩] },
                   [pyReplace s tok v]) := by
  refine ⟨?_, ?_, ?_⟩
  · simp [set_include, htok, hvar, hfile, hinc, hpvt]
  · simp [set_pvt, htok, hvar, hfile, hp]
  · simp [set_include, htok, hvar, hfile, hinc, hcor, hnom]

theorem set_include_requires_prior_set_pvt_witness :
    emptyFixture.pvt = none ∧
    matchEnvToken "$PDK_ROOT/cfg.yaml" = some "$PDK_ROOT" ∧
    cIOEnv.vars (tokenVarName "$PDK_ROOT") = some "/pdk" ∧
    cIOEnv.files (pyReplace "$PDK_ROOT/cfg.yaml" "$PDK_ROOT" "/pdk") = some pvtDoc ∧
    (set_include cIOEnv emptyFixture (PyVal.str "$PDK_ROOT/cfg.yaml")
        = Except.error (PyError.attributeError "pvt") ∧
     set_pvt cIOEnv emptyFixture (PyVal.str "$PDK_ROOT/cfg.yaml")
        = Except.ok ({ emptyFixture with
                        pvt := some (Yaml.map [("corner", Yaml.map [("nominal", Yaml.str "tt")])]) },
                     [pyReplace "$PDK_ROOT/cfg.yaml" "$PDK_ROOT" "/pdk"]) ∧
     set_include cIOEnv
        { emptyFixture with
            pvt := some (Yaml.map [("corner", Yaml.map [("nominal", Yaml.str "tt")])]) }
        (PyVal.str "$PDK_ROOT/cfg.yaml")
        = Except.ok ({ emptyFixture with
                        pvt := some (Yaml.map [("corner", Yaml.map [("nominal", Yaml.str "tt")])]),
                        includes := emptyFixture.includes ++ [⟨Yaml.str "models.spice", Yaml.str "tt"⟩] },
                     [pyReplace "$PDK_ROOT/cfg.yaml" "$PDK_ROOT" "/pdk"])) :=
  ⟨rfl, rfl, rfl, rfl,
   set_include_requires_prior_set_pvt cIOEnv emptyFixture "$PDK_ROOT/cfg.yaml" "$PDK_ROOT"
     "/pdk" pvtDoc (Yaml.str "models.spice")
     (Yaml.map [("corner", Yaml.map [("nominal", Yaml.str "tt")])])
     (Yaml.map [("nominal", Yaml.str "tt")]) (Yaml.str "tt")
     rfl rfl rfl rfl rfl rfl rfl rfl⟩

/-- Claim C8: `generate_cell` discards the subprocess exit status: two
environments that agree on the environment variables and on the
generated-file contents (the subprocess `call` results being arbitrary)
yield identical `generate_cell` results. -/
theorem generate_cell_ignores_exit_status (e1 e2 : XschemEnv) (library cell : String)
    (hv : e1.vars = e2.vars) (hr : e1.readFile = e2.readFile) :
    generate_cell e1 library cell = generate_cell e2 library cell := by
  unfold generate_cell netlist_generation
  rw [hv, hr]
  cases e2.vars "PROJECT_ROOT" <;> simp

theorem generate_cell_ignores_exit_status_witness :
    xenvA.vars = xenvB.vars ∧ xenvA.readFile = xenvB.readFile ∧
    generate_cell xenvA "stdcell" "dff_SEUT-B" = generate_cell xenvB "stdcell" "dff_SEUT-B" :=
  ⟨rfl, rfl,
   generate_cell_ignores_exit_status xenvA xenvB "stdcell" "dff_SEUT-B" rfl rfl⟩

/-- Claim C9: with a non-string `config`, both `set_pvt` and
`set_include` skip their entire body: no exception, no file opened, and
the fixture returned unchanged. -/
theorem setters_non_string_noop (env : IOEnv) (f : Fixture) (config : PyVal)
    (h : ∀ s, config ≠ PyVal.str s) :
    set_pvt env f config = Except.ok (f, []) ∧
    set_include env f config = Except.ok (f, []) := by
  cases config with
  | str s => exact absurd rfl (h s)
  | int i => exact ⟨rfl, rfl⟩
  | pyNone => exact ⟨rfl, rfl⟩
  | boolean b => exact ⟨rfl, rfl⟩

theorem setters_non_string_noop_witness :
    (∀ s, PyVal.int 3 ≠ PyVal.str s) ∧
    (set_pvt cIOEnv emptyFixture (PyVal.int 3) = Except.ok (emptyFixture, []) ∧
     set_include cIOEnv emptyFixture (PyVal.int 3) = Except.ok (emptyFixture, [])) :=
  ⟨(fun s h => by cases h),
   setters_non_string_noop cIOEnv emptyFixture (PyVal.int 3) (fun s h => by cases h)⟩

/-- Claim C10: `Fixture.__init__` always netlists the hard-coded
`stdcell/dff_SEUT-B` schematic, so the stored DUT netlist text is the
same for any two cell names under the same environment; `cell_name`
only changes the registration name of the DUT component. -/
theorem fixtureInit_cell_name_independent (env : XschemEnv) (b : Backend)
    (c1 c2 : String) (f1 f2 : Fixture)
    (h1 : fixtureInit env b c1 = Except.ok f1)
    (h2 : fixtureInit env b c2 = Except.ok f2) :
    sameDutNetlist c1 c2 f1 f2 := by
  unfold fixtureInit at h1 h2
  cases hg : generate_cell env "stdcell" "dff_SEUT-B" with
  | error e => rw [hg] at h1; cases h1
  | ok text =>
    rw [hg] at h1 h2
    simp only [Except.ok.injEq] at h1 h2
    subst h1; subst h2
    refine ⟨pySplitHead text "** flattened .save nodes", ?_, ?_, rfl, rfl, rfl, rfl⟩
    · simp [add_component, initialFixture, dictGet?, dictSet, DUTComponent]
    · simp [add_component, initialFixture, dictGet?, dictSet, DUTComponent]

theorem fixtureInit_cell_name_independent_witness :
    fixtureInit xenvA testBackend "alpha" = Except.ok c10FixA ∧
    fixtureInit xenvA testBackend "beta" = Except.ok c10FixB ∧
    sameDutNetlist "alpha" "beta" c10FixA c10FixB :=
  ⟨rfl, rfl,
   fixtureInit_cell_name_independent xenvA testBackend "alpha" "beta" c10FixA c10FixB rfl rfl⟩

theorem lines_cons_ne (c : Char) (cs : List Char) : lines (c :: cs) ≠ [] := by
  simp only [lines]
  split
  · simp
  · split <;> simp

theorem lines_cons (c : Char) (cs : List Char) :
    lines (c :: cs) =
      if c = '\n' then [] :: lines cs
      else
        match lines cs with
        | [] => [[c]]
        | l :: ls => (c :: l) :: ls := by
  simp only [lines]

theorem lines_append (a b : List Char) (h : a.getLast? = some '\n') :
    lines (a ++ b) = lines a ++ lines b := by
  induction a with
  | nil => simp at h
  | cons c cs ih =>
    cases cs with
    | nil =>
      have hc : c = '\n' := by simpa using h
      subst hc
      simp [lines]
    | cons d ds =>
      have h' : (d :: ds).getLast? = some '\n' := h
      have ih' := ih h'
      by_cases hc : c = '\n'
      · subst hc
        rw [List.cons_append, lines_cons, lines_cons, if_pos rfl, if_pos rfl, ih']
        rfl
      · obtain ⟨l, ls, hl⟩ : ∃ l ls, lines (d :: ds) = l :: ls := by
          cases hcase : lines (d :: ds) with
          | nil => exact absurd hcase (lines_cons_ne d ds)
          | cons l ls => exact ⟨l, ls, rfl⟩
        rw [List.cons_append, lines_cons, lines_cons, if_neg hc, if_neg hc, ih', hl,
            List.cons_append]
        rfl

theorem lines_append_nl (a b : List Char)
    (h : a = [] ∨ a.getLast? = some '\n') :
    lines (a ++ b) = lines a ++ lines b := by
  rcases h with h | h
  · subst h; simp [lines]
  · exact lines_append a b h

theorem lines_flatten_nl (L : List (List Char))
    (h : ∀ p ∈ L, p = [] ∨ p.getLast? = some '\n') :
    lines L.flatten = (L.map lines).flatten := by
  induction L with
  | nil => simp [lines]
  | cons p rest ih =>
    rw [List.flatten_cons, List.map_cons, List.flatten_cons,
        lines_append_nl _ _ (h p (List.mem_cons_self p rest)),
        ih (fun q hq => h q (List.mem_cons_of_mem p hq))]

theorem foldl_append_data (l : List String) (init : String) :
    (l.foldl (fun r s => r ++ s) init).data = init.data ++ (l.map String.data).flatten := by
  induction l generalizing init with
  | nil => simp
  | cons s rest ih =>
    rw [List.foldl_cons, ih, List.map_cons, List.flatten_cons, String.data_append,
        List.append_assoc]

theorem stringJoin_data (l : List String) :
    (String.join l).data = (l.map String.data).flatten := by
  have hj : String.join l = l.foldl (fun r s => r ++ s) "" := rfl
  rw [hj, foldl_append_data]
  rfl

theorem endsNL (q : String) : (q ++ "\n").data.getLast? = some '\n' := by
  rw [String.data_append, List.getLast?_append_of_ne_nil _ (by decide)]
  decide

theorem flatten_data_endsOrNil (ps : List String)
    (h : ∀ p ∈ ps, p.data.getLast? = some '\n') :
    (ps.map String.data).flatten = [] ∨
    ((ps.map String.data).flatten).getLast? = some '\n' := by
  induction ps with
  | nil => left; rfl
  | cons p rest ih =>
    right
    rw [List.map_cons, List.flatten_cons]
    rcases ih (fun q hq => h q (List.mem_cons_of_mem p hq)) with he | hl
    · rw [he, List.append_nil]
      exact h p (List.mem_cons_self p rest)
    · have hne : (rest.map String.data).flatten ≠ [] := by
        intro he2; rw [he2] at hl; cases hl
      rw [List.getLast?_append_of_ne_nil _ hne]
      exact hl

theorem section_lines (ps : List String) (h : ∀ p ∈ ps, p.data.getLast? = some '\n') :
    lines (String.join ps).data = (ps.map (fun p => lines p.data)).flatten := by
  rw [stringJoin_data,
      lines_flatten_nl _ (by
        intro q hq
        obtain ⟨p, hp, rfl⟩ := List.mem_map.mp hq
        exact Or.inr (h p hp)),
      List.map_map]
  rfl

theorem section_data_endsOrNil (ps : List String)
    (h : ∀ p ∈ ps, p.data.getLast? = some '\n') :
    (String.join ps).data = [] ∨ (String.join ps).data.getLast? = some '\n' := by
  rw [stringJoin_data]
  exact flatten_data_endsOrNil ps h

theorem includePieces_endsNL (f : Fixture) :
    ∀ p ∈ includePieces f, p.data.getLast? = some '\n' := by
  intro p hp
  obtain ⟨i, hi, rfl⟩ := List.mem_map.mp hp
  exact endsNL _

theorem domainPieces_endsNL (f : Fixture) :
    ∀ p ∈ domainPieces f, p.data.getLast? = some '\n' := by
  intro p hp
  obtain ⟨q, hq, rfl⟩ := List.mem_map.mp hp
  exact endsNL _

theorem componentPieces_endsNL (f : Fixture) :
    ∀ p ∈ componentPieces f, p.data.getLast? = some '\n' := by
  intro p hp
  obtain ⟨l, hl, hpl⟩ := List.mem_flatten.mp hp
  obtain ⟨g, hg, rfl⟩ := List.mem_map.mp hl
  obtain ⟨q, hq, rfl⟩ := List.mem_map.mp hpl
  exact endsNL _

theorem dutPieces_endsNL (f : Fixture) (duts : List (String × Component)) :
    ∀ p ∈ dutPieces f duts, p.data.getLast? = some '\n' := by
  intro p hp
  obtain ⟨q, hq, rfl⟩ := List.mem_map.mp hp
  exact endsNL _

theorem write_netlist_snd_ok (f : Fixture) (duts : List (String × Component))
    (sim : Simulation)
    (hd : dictGet? f.components "dut" = some duts) (hs : f.simulation = some sim) :
    (write_netlist f).snd = Except.ok (netlist_text f) := by
  simp [netlist_text, write_netlist, hd, hs]

theorem netlist_text_eq (f : Fixture) (duts : List (String × Component)) (sim : Simulation)
    (hd : dictGet? f.components "dut" = some duts) (hs : f.simulation = some sim) :
    netlist_text f =
      "* auto-generated netlist from analog_sim environment\n\n"
      ++ "*** Library includes\n\n" ++ includes_section f
      ++ "*** Supply domains\n\n" ++ domains_section f
      ++ "Vgnd0 gnd 0 0\n"
      ++ "\n*** Components\n\n" ++ components_section f
      ++ "\n*** DUTs\n\n" ++ duts_section f duts
      ++ "* Simulation command\n" ++ simulationEntryText f sim := by
  simp [netlist_text, write_netlist, hd, hs]

theorem netlist_text_lines (f : Fixture) (duts : List (String × Component))
    (sim : Simulation)
    (hd : dictGet? f.components "dut" = some duts) (hs : f.simulation = some sim) :
    lines (netlist_text f).data = netlistLinesDecomp f duts sim := by
  rw [netlist_text_eq f duts sim hd hs]
  unfold includes_section domains_section components_section duts_section
  simp only [String.data_append, List.append_assoc]
  rw [lines_append_nl ("* auto-generated netlist from analog_sim environment\n\n").data _
        (Or.inr (by decide)),
      lines_append_nl ("*** Library includes\n\n").data _ (Or.inr (by decide)),
      lines_append_nl _ _ (section_data_endsOrNil _ (includePieces_endsNL f)),
      lines_append_nl ("*** Supply domains\n\n").data _ (Or.inr (by decide)),
      lines_append_nl _ _ (section_data_endsOrNil _ (domainPieces_endsNL f)),
      lines_append_nl ("Vgnd0 gnd 0 0\n").data _ (Or.inr (by decide)),
      lines_append_nl ("\n*** Components\n\n").data _ (Or.inr (by decide)),
      lines_append_nl _ _ (section_data_endsOrNil _ (componentPieces_endsNL f)),
      lines_append_nl ("\n*** DUTs\n\n").data _ (Or.inr (by decide)),
      lines_append_nl _ _ (section_data_endsOrNil _ (dutPieces_endsNL f duts)),
      lines_append_nl ("* Simulation command\n").data _ (Or.inr (by decide))]
  rw [section_lines _ (includePieces_endsNL f),
      section_lines _ (domainPieces_endsNL f),
      section_lines _ (componentPieces_endsNL f),
      section_lines _ (dutPieces_endsNL f duts)]
  rw [show lines ("* auto-generated netlist from analog_sim environment\n\n").data
        = ["* auto-generated netlist from analog_sim environment".data, []] from by decide,
      show lines ("*** Library includes\n\n").data = ["*** Library includes".data, []]
        from by decide,
      show lines ("*** Supply domains\n\n").data = ["*** Supply domains".data, []]
        from by decide,
      show lines ("Vgnd0 gnd 0 0\n").data = ["Vgnd0 gnd 0 0".data] from by decide,
      show lines ("\n*** Components\n\n").data = [[], "*** Components".data, []]
        from by decide,
      show lines ("\n*** DUTs\n\n").data = [[], "*** DUTs".data, []] from by decide,
      show lines ("* Simulation command\n").data = ["* Simulation command".data]
        from by decide]
  simp [netlistLinesDecomp, List.append_assoc]

theorem markerFilter_append (a b : List (List Char)) :
    markerFilter (a ++ b) = markerFilter a ++ markerFilter b := by
  unfold markerFilter
  exact List.filter_append a b

theorem markerFilter_flatten_nil (L : List (List (List Char)))
    (h : ∀ l ∈ L, markerFilter l = []) : markerFilter L.flatten = [] := by
  induction L with
  | nil => rfl
  | cons l rest ih =>
    rw [List.flatten_cons, markerFilter_append, h l (List.mem_cons_self l rest),
        ih (fun q hq => h q (List.mem_cons_of_mem l hq))]
    rfl

/-- Claim C3: on a fixture with a registered DUT group and a set
simulation directive (whose loop-emitted entries do not themselves
contain section-marker lines), `write_netlist` succeeds, its output's
lines decompose into the fixed sections in emission order — header,
includes (in registration order), supply domains, ground tie,
components, DUT instances, simulation command — and filtering the
output's lines to the section markers yields exactly the marker list
once each, in that fixed order. -/
theorem write_netlist_section_markers_once_in_order (f : Fixture)
    (duts : List (String × Component)) (sim : Simulation)
    (hd : dictGet? f.components "dut" = some duts) (_hne : duts ≠ [])
    (hs : f.simulation = some sim)
    (hclean : ∀ p ∈ loopPieces f duts sim, markerFilter (lines p.data) = []) :
    (write_netlist f).snd = Except.ok (netlist_text f) ∧
    lines (netlist_text f).data = netlistLinesDecomp f duts sim ∧
    markerFilter (lines (netlist_text f).data) = marker_lines := by
  have hmem_inc : ∀ p ∈ includePieces f, p ∈ loopPieces f duts sim := by
    intro p hp; unfold loopPieces; simp [hp]
  have hmem_dom : ∀ p ∈ domainPieces f, p ∈ loopPieces f duts sim := by
    intro p hp; unfold loopPieces; simp [hp]
  have hmem_comp : ∀ p ∈ componentPieces f, p ∈ loopPieces f duts sim := by
    intro p hp; unfold loopPieces; simp [hp]
  have hmem_dut : ∀ p ∈ dutPieces f duts, p ∈ loopPieces f duts sim := by
    intro p hp; unfold loopPieces; simp [hp]
  have hmem_sim : simulationEntryText f sim ∈ loopPieces f duts sim := by
    unfold loopPieces; simp
  refine ⟨write_netlist_snd_ok f duts sim hd hs, netlist_text_lines f duts sim hd hs, ?_⟩
  rw [netlist_text_lines f duts sim hd hs]
  unfold netlistLinesDecomp
  simp only [markerFilter_append]
  rw [markerFilter_flatten_nil ((includePieces f).map (fun p => lines p.data)) (by
        intro l hl
        obtain ⟨p, hp, rfl⟩ := List.mem_map.mp hl
        exact hclean p (hmem_inc p hp)),
      markerFilter_flatten_nil ((domainPieces f).map (fun p => lines p.data)) (by
        intro l hl
        obtain ⟨p, hp, rfl⟩ := List.mem_map.mp hl
        exact hclean p (hmem_dom p hp)),
      markerFilter_flatten_nil ((componentPieces f).map (fun p => lines p.data)) (by
        intro l hl
        obtain ⟨p, hp, rfl⟩ := List.mem_map.mp hl
        exact hclean p (hmem_comp p hp)),
      markerFilter_flatten_nil ((dutPieces f duts).map (fun p => lines p.data)) (by
        intro l hl
        obtain ⟨p, hp, rfl⟩ := List.mem_map.mp hl
        exact hclean p (hmem_dut p hp)),
      hclean (simulationEntryText f sim) hmem_sim]
  decide

theorem write_netlist_section_markers_once_in_order_witness :
    dictGet? cf3.components "dut" = some cf3Duts ∧ cf3Duts ≠ [] ∧
    cf3.simulation = some simTran ∧
    (∀ p ∈ loopPieces cf3 cf3Duts simTran, markerFilter (lines p.data) = []) ∧
    ((write_netlist cf3).snd = Except.ok (netlist_text cf3) ∧
     lines (netlist_text cf3).data = netlistLinesDecomp cf3 cf3Duts simTran ∧
     markerFilter (lines (netlist_text cf3).data) = marker_lines) :=
  ⟨rfl, by decide, rfl, by decide,
   write_netlist_section_markers_once_in_order cf3 cf3Duts simTran rfl (by decide) rfl
     (by decide)⟩

/-- Claim C5: whenever `write_netlist` succeeds (registered DUT group,
set simulation directive) and no loop-emitted entry itself contains the
ground-tie line, the output contains the line `Vgnd0 gnd 0 0` exactly
once, however many power domains and components are registered. -/
theorem write_netlist_ground_tie_once (f : Fixture)
    (duts : List (String × Component)) (sim : Simulation)
    (hd : dictGet? f.components "dut" = some duts) (hs : f.simulation = some sim)
    (hgnd : ∀ p ∈ loopPieces f duts sim, "Vgnd0 gnd 0 0".data ∉ lines p.data) :
    (write_netlist f).snd = Except.ok (netlist_text f) ∧
    (lines (netlist_text f).data).count "Vgnd0 gnd 0 0".data = 1 := by
  have flatten_zero : ∀ ps : List String, (∀ p ∈ ps, p ∈ loopPieces f duts sim) →
      ((ps.map (fun p => lines p.data)).flatten).count "Vgnd0 gnd 0 0".data = 0 := by
    intro ps hps
    rw [List.count_eq_zero]
    intro hmem
    obtain ⟨l, hl, hml⟩ := List.mem_flatten.mp hmem
    obtain ⟨p, hp, rfl⟩ := List.mem_map.mp hl
    exact hgnd p (hps p hp) hml
  refine ⟨write_netlist_snd_ok f duts sim hd hs, ?_⟩
  rw [netlist_text_lines f duts sim hd hs]
  unfold netlistLinesDecomp
  simp only [List.count_append]
  rw [flatten_zero (includePieces f) (fun p hp => by unfold loopPieces; simp [hp]),
      flatten_zero (domainPieces f) (fun p hp => by unfold loopPieces; simp [hp]),
      flatten_zero (componentPieces f) (fun p hp => by unfold loopPieces; simp [hp]),
      flatten_zero (dutPieces f duts) (fun p hp => by unfold loopPieces; simp [hp]),
      List.count_eq_zero.mpr (hgnd (simulationEntryText f sim)
        (by unfold loopPieces; simp))]
  decide

theorem write_netlist_ground_tie_once_witness :
    dictGet? cf3.components "dut" = some cf3Duts ∧ cf3.simulation = some simTran ∧
    (∀ p ∈ loopPieces cf3 cf3Duts simTran, "Vgnd0 gnd 0 0".data ∉ lines p.data) ∧
    ((write_netlist cf3).snd = Except.ok (netlist_text cf3) ∧
     (lines (netlist_text cf3).data).count "Vgnd0 gnd 0 0".data = 1) :=
  ⟨rfl, rfl, by decide,
   write_netlist_ground_tie_once cf3 cf3Duts simTran rfl rfl (by decide)⟩

theorem infix_append_right {x B : List Char} (A : List Char) (h : x <:+: B) :
    x <:+: A ++ B := h.trans (List.suffix_append A B).isInfix

theorem infix_append_left {x A : List Char} (B : List Char) (h : x <:+: A) :
    x <:+: A ++ B := h.trans (List.prefix_append A B).isInfix

theorem mem_stringJoin_infix (x : String) (l : List String) (h : x ∈ l) :
    x.data <:+: (String.join l).data := by
  rw [stringJoin_data]
  exact List.infix_of_mem_flatten (List.mem_map_of_mem String.data h)

set_option maxHeartbeats 1600000 in
/-- Claim C2 (counterexample): on a fixture whose only registered
component is the DUT `top`, the `write_netlist` output nevertheless
contains the components-loop entry `* Component: top` and the DUT's
full rendering (`.subckt top` here) — the components loop iterates over
every type group including `'dut'`, so the components section is not
limited to non-DUT components and the DUT does not appear only as an
instantiation. -/
theorem write_netlist_dut_rendered_in_components_cex :
    "* Component: top".data ∈ lines (netlist_text cf2).data ∧
    ".subckt top".data ∈ lines (netlist_text cf2).data := by decide

set_option maxHeartbeats 1600000 in
/-- Claim C2 (amended): the components section of the `write_netlist`
output contains an entry (`* Component: <name>` comment plus the
component's rendering) for every registered component of every type
group — the `'dut'` group included — grouped by type then by name, and
the DUT components additionally appear as instantiation entries in the
subsequent DUT section. -/
theorem write_netlist_components_cover_all_types (f : Fixture)
    (duts : List (String × Component)) (sim : Simulation)
    (hd : dictGet? f.components "dut" = some duts) (hs : f.simulation = some sim) :
    (∀ t group n c, (t, group) ∈ f.components → (n, c) ∈ group →
       (componentEntryText f n c).data <:+: (netlist_text f).data) ∧
    (∀ n c, (n, c) ∈ duts →
       (dutEntryText f n c).data <:+: (netlist_text f).data) := by
  rw [netlist_text_eq f duts sim hd hs]
  constructor
  · intro t group n c hg hc
    have hmem : componentEntryText f n c ∈ componentPieces f := by
      unfold componentPieces
      refine List.mem_flatten.mpr
        ⟨group.map (fun p => componentEntryText f p.fst p.snd), ?_, ?_⟩
      · exact List.mem_map_of_mem
          (fun g => g.snd.map (fun p => componentEntryText f p.fst p.snd)) hg
      · exact List.mem_map_of_mem (fun p => componentEntryText f p.fst p.snd) hc
    have hsec : (componentEntryText f n c).data <:+: (components_section f).data :=
      mem_stringJoin_infix _ _ hmem
    simp only [String.data_append, List.append_assoc]
    exact infix_append_right _ (infix_append_right _ (infix_append_right _
      (infix_append_right _ (infix_append_right _ (infix_append_right _
      (infix_append_right _ (infix_append_left _ hsec)))))))
  · intro n c hc
    have hmem : dutEntryText f n c ∈ dutPieces f duts :=
      List.mem_map_of_mem (fun p => dutEntryText f p.fst p.snd) hc
    have hsec : (dutEntryText f n c).data <:+: (duts_section f duts).data :=
      mem_stringJoin_infix _ _ hmem
    simp only [String.data_append, List.append_assoc]
    exact infix_append_right _ (infix_append_right _ (infix_append_right _
      (infix_append_right _ (infix_append_right _ (infix_append_right _
      (infix_append_right _ (infix_append_right _ (infix_append_right _
      (infix_append_left _ hsec)))))))))

theorem write_netlist_components_cover_all_types_witness :
    dictGet? cf2.components "dut" = some [("top", DUTComponent "top" "X1 d q dff\n")] ∧
    cf2.simulation = some simTran ∧
    ((∀ t group n c, (t, group) ∈ cf2.components → (n, c) ∈ group →
        (componentEntryText cf2 n c).data <:+: (netlist_text cf2).data) ∧
     (∀ n c, (n, c) ∈ [("top", DUTComponent "top" "X1 d q dff\n")] →
        (dutEntryText cf2 n c).data <:+: (netlist_text cf2).data)) :=
  ⟨rfl, rfl,
   write_netlist_components_cover_all_types cf2
     [("top", DUTComponent "top" "X1 d q dff\n")] simTran rfl rfl⟩

end AnalogSim
